import Mathlib

/-!
Verification of the ScreenshotPro URL-discovery and job-orchestration pipeline.

The definitions below are a shallow embedding of the repository's core:
* `normalizeDomain`            — src/src/pages/GeneratorPage.tsx (and the copy in the
                                 generator page variant), lines 92-108;
* `isSitemapIndex`, `expandSitemapIndex`, `SITEMAP_PATHS`, `sourceTag`,
  `trySitemapPaths`            — src/api/v1/sitemap.ts;
* `parseCSVFile` machinery     — src/worker/crawl-worker.js, lines 183-220;
* `processCrawlJob`            — src/worker/crawl-worker.js, lines 225-304;
* `startCrawlSitemapUpdate`    — src/api/sitemap/start-crawl.ts, lines 52-59;
* `dispatchScreenshots`        — the screenshot batch API handler;
* `screenshotQuality`          — the Puppeteer screenshot worker, takeScreenshot;
* `finishSitemapDiscovery`     — the sitemap-discovery handler's terminal writes.

Network fetches (`trySitemapUrl`) are modelled as an oracle
`fetch : String → Option (List String)`: `none` is a failed/non-2xx/timeout fetch and
`some urls` is a successful fetch whose body parsed (via the `<loc>` scan) to `urls`.
The Supabase job store is modelled as explicit record updates: a `.update(patch).eq('id', id)`
call is the function that overwrites the patched fields of the addressed record.
-/

namespace ScreenshotPro

/-- Job status values, as constrained by the CHECK clauses of
src/supabase/migrations/001_initial_schema.sql. -/
inductive JobStatus where
  | pending
  | processing
  | completed
  | failed
deriving DecidableEq, Repr

/-- A row of public.sitemap_jobs (timestamps kept as opaque strings). -/
structure SitemapJobRec where
  user_id : String
  domain : String
  status : JobStatus
  urls : List String
  source : Option String
  error_message : Option String
  completed_at : Option String
deriving DecidableEq, Repr

/-- A row of public.crawl_jobs. -/
structure CrawlJobRec where
  id : String
  user_id : String
  sitemap_job_id : Option String
  domain : String
  status : JobStatus
  max_urls : Int
  crawl_depth : Int
  discovered_urls : List String
  error_message : Option String
  started_at : Option String
  completed_at : Option String
deriving DecidableEq, Repr

/-- Builds a string from its character list (all operations below work on character
lists so that every definition evaluates inside the kernel). -/
def ofChars (l : List Char) : String := ⟨l⟩

/-- JS `s.startsWith(p)`. -/
def strStartsWith (s p : String) : Bool := p.data.isPrefixOf s.data

/-- JS `s.endsWith(p)`. -/
def strEndsWith (s p : String) : Bool := p.data.isSuffixOf s.data

/-- Drops the first `n` characters of `s`. -/
def strDrop (s : String) (n : Nat) : String := ⟨s.data.drop n⟩

/-- Whitespace characters removed by JS `trim()` (the ones relevant to the inputs here). -/
def isJsSpace (c : Char) : Bool := c == ' ' || c == '\t' || c == '\n' || c == '\r'

/-- JS `s.trim()`. -/
def strTrim (s : String) : String :=
  ⟨((s.data.dropWhile isJsSpace).reverse.dropWhile isJsSpace).reverse⟩

/-- JS `s.split(sep)[0]` for a one-character separator: everything before the first `sep`. -/
def splitHead (s : String) (sep : Char) : String := ⟨s.data.takeWhile (· != sep)⟩

/-- JS `s.replace(/a/g, b)` for one-character `a` and `b`. -/
def replaceChar (s : String) (a b : Char) : String :=
  ⟨s.data.map (fun c => if c == a then b else c)⟩

/-- String concatenation (kernel-computable form). -/
def strAppend (s t : String) : String := ⟨s.data ++ t.data⟩

/-- JS truthiness of a `string | undefined` value: `undefined` and `""` are falsy. -/
def truthy : Option String → Bool
  | none => false
  | some s => !(s == "")

/-- JS `a || b` on `string | undefined` values: `a` if truthy, else `b`. -/
def jsOr (a b : Option String) : Option String :=
  if truthy a then a else b

/-- Substring test on character lists: does `needle` occur inside the list? -/
def containsAux (needle : List Char) : List Char → Bool
  | [] => needle.isPrefixOf []
  | c :: rest => needle.isPrefixOf (c :: rest) || containsAux needle rest

/-- JS `hay.includes(needle)`. -/
def strContains (hay needle : String) : Bool :=
  containsAux needle.toList hay.toList

/-- JS `[...new Set(l)]`: removes duplicates keeping the first occurrence of each element. -/
def jsDedup (l : List String) : List String :=
  l.foldl (fun acc x => if x ∈ acc then acc else acc ++ [x]) []

/-- Embeds `normalizeDomain` of src/src/pages/GeneratorPage.tsx, lines 92-108:
trim; `replace(/^https?:\/\//, '')` (the regex is case-sensitive, so only the
lowercase prefixes `https://` and `http://` are removed); `replace(/^www\./, '')`
(again only lowercase `www.`); then `split('/')[0].split('?')[0].split('#')[0]`
and finally `split(':')[0]`. -/
def normalizeDomain (input : String) : String :=
  let c0 := strTrim input
  let c1 := if strStartsWith c0 "https://" then strDrop c0 8
    else if strStartsWith c0 "http://" then strDrop c0 7 else c0
  let c2 := if strStartsWith c1 "www." then strDrop c1 4 else c1
  splitHead (splitHead (splitHead (splitHead c2 '/') '?') '#') ':'

/-- Embeds `SITEMAP_PATHS` of src/api/v1/sitemap.ts, lines 10-20. -/
def SITEMAP_PATHS : List String := [
  "/sitemap.xml",
  "/sitemap_index.xml",
  "/sitemaps.xml",
  "/sitemap/",
  "/sitemap/sitemap.xml",
  "/wp-sitemap.xml",
  "/sitemap-index.xml",
  "/page-sitemap.xml",
  "/post-sitemap.xml"]

/-- Embeds `isSitemapIndex` of src/api/v1/sitemap.ts, lines 68-72:
`xmlCount > urls.length * 0.5` after an empty-list guard. Multiplying an integer by
0.5 is exact in binary floating point, so the JS comparison agrees with
`2 * xmlCount > urls.length` over the naturals. -/
def isSitemapIndex (urls : List String) : Bool :=
  if urls.length == 0 then false
  else decide (2 * (urls.filter (fun u => strEndsWith u ".xml")).length > urls.length)

/-- Body of the `expandSitemapIndex` loop of src/api/v1/sitemap.ts, lines 77-91, for a
single candidate sitemap URL: the URLs it contributes to `allUrls`. `fetch` stands for
`trySitemapUrl` (`none` = failed fetch, `some urls` = fetched body parsed to `urls`). -/
def expandOne (fetch : String → Option (List String)) (sitemapUrl : String) : List String :=
  match fetch sitemapUrl with
  | none => []
  | some subUrls =>
    if subUrls.length > 0 then
      if isSitemapIndex subUrls then
        (subUrls.take 5).foldl (fun acc nestedUrl => acc ++ ((fetch nestedUrl).getD [])) []
      else subUrls
    else []

/-- Embeds `expandSitemapIndex` of src/api/v1/sitemap.ts, lines 75-93: iterate over the
first 15 candidates, collect their contributions, and return `[...new Set(allUrls)]`. -/
def expandSitemapIndex (fetch : String → Option (List String))
    (sitemapUrls : List String) : List String :=
  jsDedup ((sitemapUrls.take 15).foldl (fun acc u => acc ++ expandOne fetch u) [])

/-- Embeds the source-tag derivation of src/api/v1/sitemap.ts, line 201:
`path.replace(/^\//, '').replace(/\//g, '_') || 'sitemap'`. -/
def sourceTag (path : String) : String :=
  let t := replaceChar (if strStartsWith path "/" then strDrop path 1 else path) '/' '_'
  if t == "" then "sitemap" else t

/-- Embeds the `for (const path of SITEMAP_PATHS)` loop of src/api/v1/sitemap.ts,
lines 188-206 (generalised over the path list): returns the found URLs and the source
tag of the first successful path, or `none` when the loop falls through. -/
def trySitemapPaths (fetch : String → Option (List String)) (baseUrl : String) :
    List String → Option (List String × String)
  | [] => none
  | path :: rest =>
    match fetch (strAppend baseUrl path) with
    | some urls =>
      if urls.length > 0 then
        let foundUrls := if isSitemapIndex urls then expandSitemapIndex fetch urls else urls
        if foundUrls.length > 0 then some (foundUrls, sourceTag path)
        else trySitemapPaths fetch baseUrl rest
      else trySitemapPaths fetch baseUrl rest
    | none => trySitemapPaths fetch baseUrl rest

/-- Modelled from the spec's wording for the Resolver step over well-known paths: the
result a single path contributes, namely the fetched URL list after Index Expansion
when that is non-empty ("stopping at the first path whose fetch succeeds and whose
content yields at least 1 URL after Index Expansion"). Used to state that the loop
returns the first such path's result. -/
def pathSpecResult (fetch : String → Option (List String)) (baseUrl path : String) :
    Option (List String) :=
  match fetch (strAppend baseUrl path) with
  | none => none
  | some urls =>
    if urls.length > 0 then
      let found := if isSitemapIndex urls then expandSitemapIndex fetch urls else urls
      if found.length > 0 then some found else none
    else none

/-- A parsed record of the Screaming Frog CSV export, as consumed by `parseCSVFile` of
src/worker/crawl-worker.js. Each field is the value of the named column, `none` when
the column is absent from the file. -/
structure SFRow where
  addressCap : Option String
  urlCap : Option String
  addressLow : Option String
  urlLow : Option String
  statusCap : Option String
  statusLow : Option String
  contentCap : Option String
  contentLow : Option String
deriving DecidableEq, Repr

/-- Line 204: `record['Address'] || record['URL'] || record['address'] || record['url']`. -/
def rowUrl (r : SFRow) : Option String :=
  jsOr r.addressCap (jsOr r.urlCap (jsOr r.addressLow r.urlLow))

/-- Line 205: `record['Status Code'] || record['status_code']`. -/
def rowStatus (r : SFRow) : Option String := jsOr r.statusCap r.statusLow

/-- Line 206: `record['Content Type'] || record['content_type']`. -/
def rowContent (r : SFRow) : Option String := jsOr r.contentCap r.contentLow

/-- The row filter of `parseCSVFile`, src/worker/crawl-worker.js lines 208-215:
`url && url.startsWith('http')`, then `!statusCode || statusCode === '200'`, then
`!contentType || contentType.includes('text/html')`. -/
def keepRow (r : SFRow) : Bool :=
  truthy (rowUrl r) && strStartsWith ((rowUrl r).getD "") "http" &&
    (!truthy (rowStatus r) || (rowStatus r == some "200")) &&
    (!truthy (rowContent r) || strContains ((rowContent r).getD "") "text/html")

/-- Embeds `parseCSVFile` of src/worker/crawl-worker.js, lines 183-220, applied to the
already-parsed records: collect the URLs of kept rows and return
`[...new Set(urls)]`. -/
def parseCSVFile (records : List SFRow) : List String :=
  jsDedup (records.filterMap (fun r => if keepRow r then rowUrl r else none))

/-- Patch applied to a sitemap_jobs row by the crawl worker; `none` in an optional
field means the field is not part of the patch. -/
structure SitemapPatch where
  status : JobStatus
  urls : Option (List String)
  source : Option String
  error_message : Option String
  completed_at : Option String
deriving DecidableEq, Repr

/-- Embeds `processCrawlJob` of src/worker/crawl-worker.js, lines 225-304. `outcome`
abstracts `runCrawl` followed by `parseCSVOutput`: `.ok records` means the subprocess
exited 0 and the CSV parsed to `records`; `.error msg` means any failure on the way
(non-zero exit, timeout, missing CSV), with `msg` the error message. The result is the
list of successive states the crawl job row is put into by the worker's `.update`
calls (first `processing`, then the terminal state), and the patch applied to the
linked sitemap job when `job.sitemap_job_id` is set. -/
def processCrawlJob (job : CrawlJobRec) (outcome : Except String (List SFRow))
    (now : String) : List CrawlJobRec × Option SitemapPatch :=
  let p := { job with status := .processing, started_at := some now }
  match outcome with
  | .ok records =>
    let urls := parseCSVFile records
    ([p, { p with status := .completed, discovered_urls := urls, completed_at := some now }],
      job.sitemap_job_id.map fun _ =>
        { status := .completed, urls := some urls, source := some "screaming_frog",
          error_message := none, completed_at := some now })
  | .error msg =>
    ([p, { p with status := .failed, error_message := some msg, completed_at := some now }],
      job.sitemap_job_id.map fun _ =>
        { status := .failed, urls := none, source := none,
          error_message := some msg, completed_at := some now })

/-- Embeds the sitemap-job update of src/api/sitemap/start-crawl.ts, lines 52-59: when
a crawl is started with a `sitemapJobId`, that sitemap job is unconditionally updated
with `{ status: 'processing', source: 'screaming_frog' }`, whatever its current
status. -/
def startCrawlSitemapUpdate (s : SitemapJobRec) : SitemapJobRec :=
  { s with status := .processing, source := some "screaming_frog" }

/-- The JSON body returned by the sitemap-discovery handler, restricted to the fields
relevant here; `res.json` responds with HTTP status 200. -/
structure DiscoveryResponse where
  success : Bool
  requiresCrawl : Bool
  httpStatus : Nat
deriving DecidableEq, Repr

/-- Embeds the terminal writes of the sitemap-discovery handler (src/unnamed/part_006,
both handler variants, e.g. lines 473-515): when URLs were found, the sitemap job is
completed with them; otherwise the job is updated to `failed` with
`error_message: 'No sitemap found'` and the handler responds 200 with
`success: false, requiresCrawl: true`. -/
def finishSitemapDiscovery (foundUrls : List String) (src : Option String)
    (job : SitemapJobRec) (now : String) : SitemapJobRec × DiscoveryResponse :=
  if foundUrls.length > 0 then
    ({ job with
        status := .completed
        urls := foundUrls
        source := src
        completed_at := some now },
      { success := true, requiresCrawl := false, httpStatus := 200 })
  else
    ({ job with
        status := .failed
        error_message := some "No sitemap found"
        completed_at := some now },
      { success := false, requiresCrawl := true, httpStatus := 200 })

/-- Viewport dimensions. -/
structure Viewport where
  width : Int
  height : Int
deriving DecidableEq, Repr

/-- The request's `options` object for the screenshot batch handler
(src/unnamed/part_007, first handler variant): every field optional. -/
structure ScreenshotOptionsIn where
  fullPage : Option Bool
  scroll : Option Bool
  refreshCache : Option Bool
  viewport : Option Viewport
  deviceType : Option String
  delay : Option Int
deriving DecidableEq, Repr

/-- The options snapshot stored on each created screenshot job (lines 75-82 of the
handler: every field defaulted). -/
structure ResolvedOptions where
  fullPage : Bool
  scroll : Bool
  refreshCache : Bool
  viewport : Viewport
  deviceType : String
  delay : Int
deriving DecidableEq, Repr

/-- Embeds `viewportPresets` of src/unnamed/part_007, lines 21-25 (lookup by device
type; an unknown key yields `undefined`). -/
def viewportPresets (deviceType : String) : Option Viewport :=
  if deviceType == "desktop" then some ⟨1920, 1080⟩
  else if deviceType == "tablet" then some ⟨768, 1024⟩
  else if deviceType == "mobile" then some ⟨375, 667⟩
  else none

/-- Embeds the viewport resolution of the handler, lines 60-67. -/
def resolveViewport (options : ScreenshotOptionsIn) : Viewport :=
  match options.viewport with
  | some v => v
  | none =>
    match options.deviceType with
    | some dt => (viewportPresets dt).getD ⟨1920, 1080⟩
    | none => ⟨1920, 1080⟩

/-- Embeds the per-job options snapshot of the handler, lines 75-82 (`??` defaults). -/
def resolveOptions (options : ScreenshotOptionsIn) : ResolvedOptions :=
  { fullPage := options.fullPage.getD true
    scroll := options.scroll.getD false
    refreshCache := options.refreshCache.getD false
    viewport := resolveViewport options
    deviceType := options.deviceType.getD "desktop"
    delay := options.delay.getD 2 }

/-- A screenshot_jobs row as created by the batch dispatcher. -/
structure ScreenshotJobRec where
  user_id : String
  sitemap_job_id : Option String
  url : String
  status : JobStatus
  options : ResolvedOptions
deriving DecidableEq, Repr

/-- The screenshot job row built for one URL by the batch handler, lines 70-83:
`status: 'pending'` and the shared resolved-options snapshot. -/
def mkScreenshotJob (userId : String) (sitemapJobId : Option String)
    (options : ScreenshotOptionsIn) (url : String) : ScreenshotJobRec :=
  { user_id := userId, sitemap_job_id := sitemapJobId, url := url,
    status := JobStatus.pending, options := resolveOptions options }

/-- Embeds the screenshot batch handler of src/unnamed/part_007 (first variant),
lines 52-97: validation of the `urls` array (empty → 400, more than 100 → 400, in
both cases before any insert, so no job is created), then one pending job per URL,
each holding its own copy of the resolved options. -/
def dispatchScreenshots (urls : List String) (sitemapJobId : Option String)
    (options : ScreenshotOptionsIn) (userId : String) :
    Except String (List ScreenshotJobRec) :=
  if urls.length == 0 then Except.error "URLs array is required"
  else if urls.length > 100 then Except.error "Maximum 100 URLs per batch"
  else Except.ok (urls.map (mkScreenshotJob userId sitemapJobId options))

/-- Embeds the quality handling of `takeScreenshot` in the Puppeteer screenshot worker
(src/unnamed/part_001, lines 368-379): the `quality` key of the screenshot options is
set to `Math.min(100, Math.max(10, quality))` when the format is jpeg and is not set
at all otherwise (`type` is jpeg exactly when format is jpeg, else png). -/
def screenshotQuality (format : String) (quality : Int) : Option Int :=
  if format == "jpeg" then some (min 100 (max 10 quality)) else none

/-- Concrete fetch oracle for resolver examples: both `/sitemap.xml` and
`/sitemap_index.xml` of example.com succeed with non-empty page lists. -/
def exampleFetch : String → Option (List String) := fun u =>
  if u == "https://example.com/sitemap.xml" then
    some ["https://example.com/a", "https://example.com/b"]
  else if u == "https://example.com/sitemap_index.xml" then
    some ["https://example.com/c"]
  else none

/-- A distinct page URL for each index (kernel-computable). -/
def pageUrl (i : Nat) : String := ofChars ("https://example.com/p".data ++ List.replicate i 'a')

/-- A CSV record with the given address, status code and content type (only the
columns Screaming Frog actually emits are populated). -/
def mkRow (address status contentType : String) : SFRow :=
  ⟨some address, none, none, none, some status, none, some contentType, none⟩

/-- The tabular export of end-to-end scenario B: 50 rows, 45 of them status 200 and
text/html, 5 of them status 404. -/
def exampleRows : List SFRow :=
  (List.range 45).map (fun i => mkRow (pageUrl i) "200" "text/html") ++
    (List.range 5).map (fun i => mkRow (pageUrl (100 + i)) "404" "text/html")

/-- A sitemap job that has already reached the terminal status `failed` (exactly the
state the discovery handler leaves behind when no sitemap is found). -/
def exampleFailedSitemapJob : SitemapJobRec :=
  { user_id := "u1", domain := "https://example.com", status := .failed, urls := [],
    source := none, error_message := some "No sitemap found", completed_at := some "t0" }

/-- A pending crawl job linked to a sitemap job. -/
def exampleCrawlJob : CrawlJobRec :=
  { id := "c1", user_id := "u1", sitemap_job_id := some "s1",
    domain := "https://example.com", status := .pending, max_urls := 500,
    crawl_depth := 3, discovered_urls := [], error_message := none,
    started_at := none, completed_at := none }

/-- A sitemap job in the state the discovery handler creates it in. -/
def exampleProcessingSitemapJob : SitemapJobRec :=
  { user_id := "u1", domain := "https://example.com", status := .processing, urls := [],
    source := none, error_message := none, completed_at := none }

/-- The all-defaults request options for the screenshot batch handler. -/
def exampleOptions : ScreenshotOptionsIn := ⟨none, none, none, none, none, none⟩

theorem jsDedup_foldl_nodup (l : List String) :
    ∀ acc : List String, acc.Nodup →
      (l.foldl (fun acc x => if x ∈ acc then acc else acc ++ [x]) acc).Nodup := by
  induction l with
  | nil => intro acc h; simpa using h
  | cons x xs ih =>
    intro acc h
    simp only [List.foldl_cons]
    by_cases hx : x ∈ acc
    · rw [if_pos hx]; exact ih acc h
    · rw [if_neg hx]
      refine ih (acc ++ [x]) ?_
      simp [List.nodup_append, h, hx]

theorem jsDedup_nodup (l : List String) : (jsDedup l).Nodup :=
  jsDedup_foldl_nodup l [] List.nodup_nil

theorem jsDedup_foldl_mem (l : List String) (u : String) :
    ∀ acc : List String,
      (u ∈ l.foldl (fun acc x => if x ∈ acc then acc else acc ++ [x]) acc ↔ u ∈ acc ∨ u ∈ l) := by
  induction l with
  | nil => intro acc; simp
  | cons x xs ih =>
    intro acc
    simp only [List.foldl_cons]
    by_cases hx : x ∈ acc
    · rw [if_pos hx, ih acc]
      constructor
      · rintro (h | h)
        · exact Or.inl h
        · exact Or.inr (List.mem_cons_of_mem _ h)
      · rintro (h | h)
        · exact Or.inl h
        · rcases List.mem_cons.mp h with h | h
          · exact Or.inl (h ▸ hx)
          · exact Or.inr h
    · rw [if_neg hx, ih (acc ++ [x])]
      simp only [List.mem_append, List.mem_singleton, List.mem_cons]
      tauto

theorem jsDedup_mem (l : List String) (u : String) : u ∈ jsDedup l ↔ u ∈ l := by
  have h := jsDedup_foldl_mem l u []
  simpa [jsDedup] using h

theorem trySitemapPaths_eq_findSome (fetch : String → Option (List String))
    (baseUrl : String) (paths : List String) :
    trySitemapPaths fetch baseUrl paths =
      paths.findSome? (fun p => (pathSpecResult fetch baseUrl p).map (fun r => (r, sourceTag p))) := by
  induction paths with
  | nil => rfl
  | cons p rest ih =>
    simp only [trySitemapPaths, pathSpecResult, List.findSome?]
    cases fetch (strAppend baseUrl p) with
    | none => simpa using ih
    | some urls =>
      by_cases h1 : urls.length > 0
      · simp only [if_pos h1]
        by_cases h2 : (if isSitemapIndex urls then expandSitemapIndex fetch urls else urls).length > 0
        · simp [h2]
        · simp only [if_neg h2, ih]; rfl
      · simp only [if_neg h1, ih]; rfl

theorem statusOk_iff (s : Option String) :
    (!truthy s || (s == some "200")) = true ↔ (s = none ∨ s = some "" ∨ s = some "200") := by
  cases s with
  | none => simp [truthy]
  | some v =>
    simp only [truthy, Bool.not_not, Bool.or_eq_true, beq_iff_eq, Option.some.injEq]
    tauto

theorem contentOk_iff (s : Option String) :
    (!truthy s || strContains (s.getD "") "text/html") = true ↔
      (s = none ∨ s = some "" ∨ strContains (s.getD "") "text/html" = true) := by
  cases s with
  | none => simp [truthy]
  | some v =>
    simp only [truthy, Bool.not_not, Bool.or_eq_true, beq_iff_eq, Option.getD_some,
      Option.some.injEq]
    tauto

theorem keep_filter_iff (r : SFRow) (u : String) :
    (if keepRow r then rowUrl r else none) = some u ↔
      (rowUrl r = some u ∧ u ≠ "" ∧ strStartsWith u "http" = true ∧
        (rowStatus r = none ∨ rowStatus r = some "" ∨ rowStatus r = some "200") ∧
        (rowContent r = none ∨ rowContent r = some "" ∨
          strContains ((rowContent r).getD "") "text/html" = true)) := by
  cases hu : rowUrl r with
  | none =>
    have hk : keepRow r = false := by simp [keepRow, hu, truthy]
    simp [hk, hu]
  | some v =>
    rw [keepRow, hu]
    by_cases hc : (truthy (some v) && strStartsWith ((some v).getD "") "http" &&
        ((!truthy (rowStatus r)) || (rowStatus r == some "200")) &&
        ((!truthy (rowContent r)) || strContains ((rowContent r).getD "") "text/html")) = true
    · rw [if_pos hc]
      obtain ⟨⟨⟨h1, h2⟩, h3⟩, h4⟩ := by
        simpa only [Bool.and_eq_true] using hc
      have hne : v ≠ "" := by simpa [truthy] using h1
      have hsw : strStartsWith v "http" = true := h2
      constructor
      · intro huv
        obtain rfl : v = u := by simpa using huv
        exact ⟨rfl, hne, hsw, (statusOk_iff _).mp h3, (contentOk_iff _).mp h4⟩
      · rintro ⟨huv, -, -, -, -⟩
        exact huv
    · rw [if_neg hc]
      constructor
      · intro h; exact absurd h (by simp)
      · rintro ⟨huv, hne, hswu, hst, hct⟩
        obtain rfl : v = u := by simpa using huv
        refine absurd ?_ hc
        have h1 : truthy (some v) = true := by simpa [truthy] using hne
        have h2 : strStartsWith ((some v).getD "") "http" = true := hswu
        simp only [Bool.and_eq_true]
        exact ⟨⟨⟨h1, h2⟩, (statusOk_iff _).mpr hst⟩, (contentOk_iff _).mpr hct⟩

/-- C2 counterexample: the claim asserts `normalize("HTTP://WWW.Example.com/foo?x=1")`
yields the same base host as `normalize("example.com")`, namely "example.com". In the
code the scheme- and www-stripping regexes are case-sensitive, so the uppercase input
normalizes to "HTTP" instead. -/
theorem C2_normalize_counterexample :
    normalizeDomain "HTTP://WWW.Example.com/foo?x=1" = "HTTP" ∧
    normalizeDomain "example.com" = "example.com" ∧
    normalizeDomain "HTTP://WWW.Example.com/foo?x=1" ≠ normalizeDomain "example.com" := by
  refine ⟨by decide, by decide, by decide⟩

/-- C2 amended: domain normalization strips a lowercase `http://` or `https://`
scheme, then a lowercase leading `www.`, then everything after the first '/', '?',
'#' or ':' (case preserved); lowercase variants of the claim's inputs therefore all
normalize to "example.com", while the uppercase input "HTTP://WWW.Example.com/foo?x=1"
normalizes to "HTTP" because its scheme prefix is not matched. -/
theorem C2_normalize_amended :
    normalizeDomain "example.com" = "example.com" ∧
    normalizeDomain "https://example.com:8080" = "example.com" ∧
    normalizeDomain "https://www.example.com/foo?x=1" = "example.com" ∧
    normalizeDomain " http://www.example.com/foo?x=1#frag " = "example.com" ∧
    normalizeDomain "HTTP://WWW.Example.com/foo?x=1" = "HTTP" := by
  refine ⟨by decide, by decide, by decide, by decide, by decide⟩

/-- C3 counterexample: with an oracle on which both `/sitemap.xml` and
`/sitemap_index.xml` succeed non-empty, the resolver loop does return the
`/sitemap.xml` result first, but its source tag is "sitemap.xml" — the derivation
only strips the leading slash and replaces slashes by underscores, so the dot is
kept and the tag is not "sitemap_xml" as the claim's example states. -/
theorem C3_source_tag_counterexample :
    trySitemapPaths exampleFetch "https://example.com" SITEMAP_PATHS =
      some (["https://example.com/a", "https://example.com/b"], "sitemap.xml") ∧
    sourceTag "/sitemap.xml" ≠ "sitemap_xml" := by
  refine ⟨by decide, by decide⟩

/-- C3 amended: the resolver tries the well-known paths in their fixed list order and
returns the result of the first path whose fetch yields at least one URL after
expansion, never falling through to later paths (the loop equals a first-match
search); the source tag is the path with the leading slash stripped and remaining
slashes replaced by underscores, so `/sitemap.xml` gives source `sitemap.xml` (the
dot is kept) and `/sitemap/sitemap.xml` gives `sitemap_sitemap.xml`. -/
theorem C3_first_match_amended :
    (∀ (fetch : String → Option (List String)) (baseUrl : String) (paths : List String),
      trySitemapPaths fetch baseUrl paths =
        paths.findSome? (fun p => (pathSpecResult fetch baseUrl p).map (fun r => (r, sourceTag p)))) ∧
    sourceTag "/sitemap.xml" = "sitemap.xml" ∧
    sourceTag "/sitemap/sitemap.xml" = "sitemap_sitemap.xml" ∧
    sourceTag "/sitemap/" = "sitemap_" ∧
    trySitemapPaths exampleFetch "https://example.com" SITEMAP_PATHS =
      some (["https://example.com/a", "https://example.com/b"], "sitemap.xml") := by
  refine ⟨trySitemapPaths_eq_findSome, by decide, by decide, by decide, by decide⟩

/-- C4: a candidate URL list is judged a sitemap index exactly when strictly more
than half of its entries end in ".xml"; in particular a 10-element list with exactly
6 entries ending in ".xml" is judged an index and one with exactly 5 is not. -/
theorem C4_index_threshold :
    (∀ urls : List String,
      isSitemapIndex urls = true ↔
        2 * (urls.filter (fun u => strEndsWith u ".xml")).length > urls.length) ∧
    isSitemapIndex (List.replicate 6 "https://e.com/a.xml" ++ List.replicate 4 "https://e.com/b") = true ∧
    isSitemapIndex (List.replicate 5 "https://e.com/a.xml" ++ List.replicate 5 "https://e.com/b") = false := by
  refine ⟨?_, by decide, by decide⟩
  intro urls
  rcases urls with _ | ⟨u, us⟩
  · simp [isSitemapIndex]
  · simp [isSitemapIndex]

/-- C5: for every fetch oracle and every input list of candidate sitemap URLs, the
output of the Index Expander contains no duplicate entries. -/
theorem C5_expander_nodup (fetch : String → Option (List String))
    (candidateUrls : List String) : (expandSitemapIndex fetch candidateUrls).Nodup :=
  jsDedup_nodup _

/-- C9 counterexample: the claim asserts that when no strategy finds URLs the
associated sitemap job is NOT put into a failed state with an error message; the
handler's terminal write does exactly that. -/
theorem C9_notfound_counterexample :
    (finishSitemapDiscovery [] none exampleProcessingSitemapJob "t1").1.status = JobStatus.failed ∧
    (finishSitemapDiscovery [] none exampleProcessingSitemapJob "t1").1.error_message =
      some "No sitemap found" := by
  refine ⟨by decide, by decide⟩

/-- C9 amended: when no resolver strategy discovers any URL, the handler responds 200
(not an HTTP error) with `success: false` and `requiresCrawl: true`, signalling the
caller to consider a bulk crawl — but the associated sitemap job IS put into status
`failed` with `error_message: 'No sitemap found'`. -/
theorem C9_notfound_amended (src : Option String) (job : SitemapJobRec) (now : String) :
    (finishSitemapDiscovery [] src job now).2 =
      { success := false, requiresCrawl := true, httpStatus := 200 } ∧
    (finishSitemapDiscovery [] src job now).1 =
      { job with status := .failed, error_message := some "No sitemap found",
                 completed_at := some now } := by
  exact ⟨rfl, rfl⟩

/-- C10: for a jpeg screenshot job the worker clamps the supplied quality into
[10, 100] (below 10 becomes 10, above 100 becomes 100) rather than rejecting it; for
png no quality is set at all. -/
theorem C10_quality_clamp (quality : Int) :
    screenshotQuality "jpeg" quality =
      some (if quality < 10 then 10 else if quality > 100 then 100 else quality) ∧
    screenshotQuality "png" quality = none := by
  constructor
  · show some (min 100 (max 10 quality)) = _
    congr 1
    rcases lt_or_le quality 10 with h | h
    · rw [if_pos h, max_eq_left (le_of_lt h), min_eq_right]
      all_goals omega
    · rw [if_neg (not_lt.mpr h), max_eq_right h]
      rcases lt_or_le 100 quality with h2 | h2
      · rw [if_pos h2, min_eq_left (le_of_lt h2)]
      · rw [if_neg (not_lt.mpr h2), min_eq_right h2]
  · rfl

/-- C1 counterexample: the claim asserts that once a job is completed or failed, any
attempt to set another status is rejected and the stored job is unchanged. The
start-crawl handler's own sitemap-job update, applied to a `failed` sitemap job
(the very state discovery leaves it in before a crawl is started), moves it back to
`processing` — the update is applied, not rejected. -/
theorem C1_terminal_counterexample :
    exampleFailedSitemapJob.status = JobStatus.failed ∧
    (startCrawlSitemapUpdate exampleFailedSitemapJob).status = JobStatus.processing ∧
    startCrawlSitemapUpdate exampleFailedSitemapJob ≠ exampleFailedSitemapJob := by
  refine ⟨by decide, by decide, by decide⟩

/-- C1 amended: the workers only select `pending` jobs and drive each processed crawl
job forward through `pending → processing → completed|failed`; but job-store updates
are unconditional — nothing rejects a transition out of a terminal state, and in the
standard flow the start-crawl handler moves a failed sitemap job back to `processing`
(every sitemap job it touches ends up `processing`, whatever its prior status). -/
theorem C1_forward_only_amended (job : CrawlJobRec) (outcome : Except String (List SFRow))
    (now : String) (h : job.status = JobStatus.pending) :
    (job.status :: ((processCrawlJob job outcome now).1.map (fun c => c.status)) =
        [JobStatus.pending, JobStatus.processing, JobStatus.completed] ∨
      job.status :: ((processCrawlJob job outcome now).1.map (fun c => c.status)) =
        [JobStatus.pending, JobStatus.processing, JobStatus.failed]) ∧
    (∀ s : SitemapJobRec, (startCrawlSitemapUpdate s).status = JobStatus.processing) := by
  constructor
  · cases outcome with
    | ok records => left; simp [processCrawlJob, h]
    | error msg => right; simp [processCrawlJob, h]
  · intro s; rfl

/-- C1 witness: the amended theorem applied to a concrete pending crawl job. -/
theorem C1_forward_only_witness :
    exampleCrawlJob.status :: ((processCrawlJob exampleCrawlJob (Except.ok []) "t1").1.map
        (fun c => c.status)) =
      [JobStatus.pending, JobStatus.processing, JobStatus.completed] ∨
    exampleCrawlJob.status :: ((processCrawlJob exampleCrawlJob (Except.ok []) "t1").1.map
        (fun c => c.status)) =
      [JobStatus.pending, JobStatus.processing, JobStatus.failed] :=
  (C1_forward_only_amended exampleCrawlJob (Except.ok []) "t1" (by decide)).1

/-- C6: the screenshot batch dispatch rejects an empty urls list and any list of more
than 100 URLs with a synchronous validation error (the handler returns 400 before any
insert, so zero jobs are created); for 1-100 URLs it creates exactly one pending job
per URL and every created job carries the same resolved options content. -/
theorem C6_batch_ceiling (urls : List String) (sitemapJobId : Option String)
    (options : ScreenshotOptionsIn) (userId : String) :
    (urls = [] →
      dispatchScreenshots urls sitemapJobId options userId =
        Except.error "URLs array is required") ∧
    (urls.length > 100 →
      dispatchScreenshots urls sitemapJobId options userId =
        Except.error "Maximum 100 URLs per batch") ∧
    (urls ≠ [] → urls.length ≤ 100 →
      dispatchScreenshots urls sitemapJobId options userId =
        Except.ok (urls.map (mkScreenshotJob userId sitemapJobId options)) ∧
      (urls.map (mkScreenshotJob userId sitemapJobId options)).length = urls.length ∧
      ∀ j ∈ urls.map (mkScreenshotJob userId sitemapJobId options),
        j.options = resolveOptions options) := by
  refine ⟨?_, ?_, ?_⟩
  · intro h; subst h; rfl
  · intro h
    have h0 : (urls.length == 0) = false := by
      simp only [beq_eq_false_iff_ne]
      omega
    simp [dispatchScreenshots, h0, h]
  · intro h1 h2
    have h0 : (urls.length == 0) = false := by
      simp only [beq_eq_false_iff_ne]
      intro hc
      exact h1 (List.length_eq_zero.mp hc)
    have h3 : ¬ urls.length > 100 := by omega
    refine ⟨by simp [dispatchScreenshots, h0, h3], by simp, ?_⟩
    intro j hj
    rcases List.mem_map.mp hj with ⟨u, -, rfl⟩
    rfl

/-- C6 witness: a 2-URL batch is accepted and a 101-URL batch is rejected. -/
theorem C6_batch_ceiling_witness :
    dispatchScreenshots ["https://a.com", "https://b.com"] none exampleOptions "u1" =
      Except.ok (["https://a.com", "https://b.com"].map (mkScreenshotJob "u1" none exampleOptions)) ∧
    dispatchScreenshots (List.replicate 101 "https://a.com") none exampleOptions "u1" =
      Except.error "Maximum 100 URLs per batch" :=
  ⟨((C6_batch_ceiling ["https://a.com", "https://b.com"] none exampleOptions "u1").2.2
      (by decide) (by decide)).1,
    (C6_batch_ceiling (List.replicate 101 "https://a.com") none exampleOptions "u1").2.1
      (by decide)⟩

set_option maxRecDepth 4000 in
/-- C7: on subprocess exit 0 the persisted discovered_urls are exactly the
deduplicated URLs of rows whose URL is present and starts with "http" (which covers
the http and https schemes), whose status code is absent/empty or exactly "200", and
whose content type is absent/empty or contains "text/html"; the result has no
duplicates, it is what the worker stores on the completed crawl job, and on the
50-row example export (45 rows status 200 text/html, 5 rows status 404) it has
exactly 45 URLs. -/
theorem C7_csv_filter (records : List SFRow) :
    (parseCSVFile records).Nodup ∧
    (∀ u : String, u ∈ parseCSVFile records ↔
      ∃ r ∈ records, rowUrl r = some u ∧ u ≠ "" ∧ strStartsWith u "http" = true ∧
        (rowStatus r = none ∨ rowStatus r = some "" ∨ rowStatus r = some "200") ∧
        (rowContent r = none ∨ rowContent r = some "" ∨
          strContains ((rowContent r).getD "") "text/html" = true)) ∧
    (∀ (job : CrawlJobRec) (now : String),
      (processCrawlJob job (Except.ok records) now).1.map (fun c => c.discovered_urls) =
        [job.discovered_urls, parseCSVFile records]) ∧
    exampleRows.length = 50 ∧
    (parseCSVFile exampleRows).length = 45 := by
  refine ⟨jsDedup_nodup _, ?_, ?_, by decide, by decide⟩
  · intro u
    rw [parseCSVFile, jsDedup_mem, List.mem_filterMap]
    constructor
    · rintro ⟨r, hr, hfr⟩
      exact ⟨r, hr, (keep_filter_iff r u).mp hfr⟩
    · rintro ⟨r, hr, hcond⟩
      exact ⟨r, hr, (keep_filter_iff r u).mpr hcond⟩
  · intro job now
    simp [processCrawlJob]

/-- C8 counterexample: the claim asserts the propagated sitemap update is tagged
`source = bulk_crawl`; the worker writes `source = 'screaming_frog'` (and the schema's
CHECK constraint on sitemap_jobs.source likewise only allows 'screaming_frog'). -/
theorem C8_bulk_crawl_tag_counterexample :
    (processCrawlJob exampleCrawlJob (Except.ok []) "t1").2 =
      some { status := JobStatus.completed, urls := some [], source := some "screaming_frog",
             error_message := none, completed_at := some "t1" } ∧
    (processCrawlJob exampleCrawlJob (Except.ok []) "t1").2.map SitemapPatch.source ≠
      some (some "bulk_crawl") := by
  refine ⟨by decide, by decide⟩

/-- C8 amended: for every crawl job referencing a sitemap job, reaching a terminal
state propagates an equivalent update to that sitemap job: on success the sitemap job
is set to completed with the same URL list the crawl job stores, tagged
`source = "screaming_frog"` (the code's literal tag for the bulk-crawl strategy, which
the spec calls bulk_crawl), and on failure it is set to failed with the same error
message. -/
theorem C8_propagation_amended (job : CrawlJobRec) (sid : String)
    (records : List SFRow) (msg now : String) (h : job.sitemap_job_id = some sid) :
    (processCrawlJob job (Except.ok records) now).2 =
      some { status := JobStatus.completed, urls := some (parseCSVFile records),
             source := some "screaming_frog", error_message := none,
             completed_at := some now } ∧
    (processCrawlJob job (Except.ok records) now).1.map (fun c => c.discovered_urls) =
      [job.discovered_urls, parseCSVFile records] ∧
    (processCrawlJob job (Except.error msg) now).2 =
      some { status := JobStatus.failed, urls := none, source := none,
             error_message := some msg, completed_at := some now } ∧
    (processCrawlJob job (Except.error msg) now).1.map (fun c => c.error_message) =
      [job.error_message, some msg] := by
  refine ⟨?_, ?_, ?_, ?_⟩ <;> simp [processCrawlJob, h]

/-- C8 witness: the amended theorem applied to a concrete linked crawl job. -/
theorem C8_propagation_witness :
    (processCrawlJob exampleCrawlJob (Except.ok exampleRows) "t1").2 =
      some { status := JobStatus.completed, urls := some (parseCSVFile exampleRows),
             source := some "screaming_frog", error_message := none,
             completed_at := some "t1" } :=
  (C8_propagation_amended exampleCrawlJob "s1" exampleRows "crawl failed" "t1" (by decide)).1

end ScreenshotPro
